import Mathlib

/-!
Verification of the AI-response contract and file-commit protocol of the
Coder-dev repository, against its natural-language specification.

The development shallowly embeds the relevant TypeScript sources:

* `src/services/geminiService.ts` — the `chatWithAI` orchestrator: provider
  dispatch, markdown-fence cleanup, JSON decoding, and error absorption.
* `src/app/api/commit/route.ts` — the Next.js `POST` commit endpoint.
* the Vercel serverless commit `handler` (second commit endpoint in the repo).
* `src/services/githubService.ts` — `getRepoFileTree`.

JavaScript values produced by `JSON.parse` are modelled by the inductive
type `Json` (numbers are modelled as integers: the claims under study never
depend on fractional values).  Network interactions are modelled as explicit
oracle arguments / remote-state threading.
-/

namespace CoderDev

/-- JSON values as produced by `JSON.parse`.  An object keeps its key/value
pairs in source order (duplicate keys allowed; property access takes the
last binding, as `JSON.parse` lets later keys overwrite earlier ones). -/
inductive Json where
  | null : Json
  | bool (b : Bool) : Json
  | num (n : Int) : Json
  | str (s : String) : Json
  | arr (xs : List Json) : Json
  | obj (kvs : List (String × Json)) : Json

/-- JavaScript truthiness of a `Json` value: `null`, `false`, `0` and the
empty string are falsy; every other value (including `[]` and the empty
object) is truthy. -/
def Json.truthy : Json → Bool
  | .null => false
  | .bool b => b
  | .num n => n != 0
  | .str s => s != ""
  | .arr _ => true
  | .obj _ => true

/-- Last binding of key `k` in an association list (JS object semantics:
later duplicate keys overwrite earlier ones). -/
def lookupLast : List (String × Json) → String → Option Json
  | [], _ => none
  | (k', v) :: t, k =>
    match lookupLast t k with
    | some r => some r
    | none => if k' = k then some v else none

/-- JS property access `j.k`: defined only on objects; on any other value
the property is `undefined` (modelled as `none`). -/
def Json.getField : Json → String → Option Json
  | .obj kvs, k => lookupLast kvs k
  | _, _ => none

/-! ### A JSON parser modelling `JSON.parse`

The parser works on `List Char` with explicit fuel.  It covers the JSON
fragment the program exchanges: `null`, booleans, integer numbers, strings
with escapes, arrays and objects, with JSON whitespace.  (Fractional and
exponent number forms are rejected rather than decoded; the claims never
involve them.) -/

def isJsonWs (c : Char) : Bool :=
  c = ' ' || c = '\t' || c = '\n' || c = '\r'

def skipWs : List Char → List Char
  | c :: t => if isJsonWs c then skipWs t else c :: t
  | [] => []

def hexVal (c : Char) : Option Nat :=
  if '0' ≤ c ∧ c ≤ '9' then some (c.toNat - 48)
  else if 'a' ≤ c ∧ c ≤ 'f' then some (c.toNat - 87)
  else if 'A' ≤ c ∧ c ≤ 'F' then some (c.toNat - 55)
  else none

/-- Decode a single-character JSON escape: the mapped control characters
for letters, and the character itself for quote, backslash and slash. -/
def escChar (e : Char) : Option Char :=
  if e = 'n' then some '\n'
  else if e = 't' then some '\t'
  else if e = 'r' then some '\r'
  else if e = 'b' then some (Char.ofNat 8)
  else if e = 'f' then some (Char.ofNat 12)
  else if e = '"' ∨ e = '\\' ∨ e = '/' then some e
  else none

/-- Parse the body of a JSON string after the opening quote; returns the
decoded characters and the input remaining after the closing quote. -/
def parseStrChars : List Char → Option (List Char × List Char)
  | '"' :: t => some ([], t)
  | '\\' :: 'u' :: a :: b :: c :: d :: t => do
    let ha ← hexVal a
    let hb ← hexVal b
    let hc ← hexVal c
    let hd ← hexVal d
    let (s, r) ← parseStrChars t
    pure (Char.ofNat (((ha * 16 + hb) * 16 + hc) * 16 + hd) :: s, r)
  | '\\' :: e :: t => do
    let c ← escChar e
    let (s, r) ← parseStrChars t
    pure (c :: s, r)
  | c :: t =>
    if c.toNat < 32 then none
    else do
      let (s, r) ← parseStrChars t
      pure (c :: s, r)
  | [] => none

/-- Parse an unsigned decimal integer (JSON forbids superfluous leading
zeros). -/
def parseDigits (cs : List Char) : Option (Nat × List Char) :=
  let ds := cs.takeWhile (fun c => c.isDigit)
  if ds = [] then none
  else if 1 < ds.length ∧ ds.head? = some '0' then none
  else some (ds.foldl (fun a c => a * 10 + (c.toNat - 48)) 0, cs.drop ds.length)

def parseIntLit (cs : List Char) : Option (Int × List Char) :=
  match cs with
  | '-' :: t => (parseDigits t).map (fun p => (-(p.1 : Int), p.2))
  | _ => (parseDigits cs).map (fun p => ((p.1 : Int), p.2))

mutual

def parseVal : Nat → List Char → Option (Json × List Char)
  | 0, _ => none
  | Nat.succ fuel, cs =>
    match skipWs cs with
    | 'n' :: 'u' :: 'l' :: 'l' :: t => some (Json.null, t)
    | 't' :: 'r' :: 'u' :: 'e' :: t => some (Json.bool true, t)
    | 'f' :: 'a' :: 'l' :: 's' :: 'e' :: t => some (Json.bool false, t)
    | '"' :: t => (parseStrChars t).map (fun p => (Json.str (String.mk p.1), p.2))
    | '[' :: t =>
      (match skipWs t with
       | ']' :: r => some (Json.arr [], r)
       | t2 => (parseElems fuel t2).map (fun p => (Json.arr p.1, p.2)))
    | '\x7b' :: t =>
      (match skipWs t with
       | '\x7d' :: r => some (Json.obj [], r)
       | t2 => (parseMembers fuel t2).map (fun p => (Json.obj p.1, p.2)))
    | c :: t =>
      if c = '-' ∨ c.isDigit then
        match parseIntLit (c :: t) with
        | some (n, r) =>
          match r with
          | d :: _ => if d = '.' ∨ d = 'e' ∨ d = 'E' then none else some (Json.num n, r)
          | [] => some (Json.num n, [])
        | none => none
      else none
    | [] => none

def parseElems : Nat → List Char → Option (List Json × List Char)
  | 0, _ => none
  | Nat.succ fuel, cs => do
    let (v, r) ← parseVal fuel cs
    match skipWs r with
    | ',' :: r2 => (parseElems fuel r2).map (fun p => (v :: p.1, p.2))
    | ']' :: r2 => some ([v], r2)
    | _ => none

def parseMembers : Nat → List Char → Option (List (String × Json) × List Char)
  | 0, _ => none
  | Nat.succ fuel, cs =>
    match skipWs cs with
    | '"' :: t => do
      let (k, r) ← parseStrChars t
      match skipWs r with
      | ':' :: r2 => do
        let (v, r3) ← parseVal fuel r2
        match skipWs r3 with
        | ',' :: r4 => (parseMembers fuel r4).map (fun p => ((String.mk k, v) :: p.1, p.2))
        | '\x7d' :: r4 => some ([(String.mk k, v)], r4)
        | _ => none
      | _ => none
    | _ => none

end

/-- Model of `JSON.parse`: decode one JSON value and require that only
whitespace remains. `none` models the `SyntaxError` throw. -/
def Json.parse (s : String) : Option Json :=
  match parseVal (s.length * 2 + 8) s.data with
  | some (j, r) => if skipWs r = [] then some j else none
  | none => none

/-! ### Markdown-fence cleanup (`geminiService.ts`, line 138)

`rawText.replace(/^```json\n?/i, '').replace(/\n?```$/, '')`:
the leading fence line is stripped only when it carries the tag `json`
(case-insensitively); the trailing fence (with an optional preceding
newline) is stripped unconditionally.  Both replacements are modelled on
the underlying character lists. -/

def stripLeadL (cs : List Char) : List Char :=
  match cs with
  | a :: b :: c :: c1 :: c2 :: c3 :: c4 :: rest =>
    if a = '\x60' ∧ b = '\x60' ∧ c = '\x60' ∧ c1.toLower = 'j' ∧ c2.toLower = 's' ∧
        c3.toLower = 'o' ∧ c4.toLower = 'n' then
      if rest.head? = some '\n' then rest.tail else rest
    else cs
  | _ => cs

def stripTrailRev (rs : List Char) : List Char :=
  match rs with
  | a :: b :: c :: t =>
    if a = '\x60' ∧ b = '\x60' ∧ c = '\x60' then
      if t.head? = some '\n' then t.tail else t
    else rs
  | _ => rs

def stripTrailL (cs : List Char) : List Char :=
  (stripTrailRev cs.reverse).reverse

/-- Models `rawText.replace(/^```json\n?/i, '')`. -/
def stripLeadingJsonFence (s : String) : String :=
  String.mk (stripLeadL s.data)

/-- Models `.replace(/\n?```$/, '')`. -/
def stripTrailingFence (s : String) : String :=
  String.mk (stripTrailL s.data)

/-- The `cleanedText` computed by `chatWithAI` from the raw provider text. -/
def cleanText (s : String) : String :=
  stripTrailingFence (stripLeadingJsonFence s)

/-! ### The parse step and orchestrator of `chatWithAI` -/

/-- The `AIResponse` shape as built at runtime by `chatWithAI`.  Both fields are
modelled as JS values: `text` is a string on every path the service takes,
but `parsed.text || "Here is the code."` can at runtime pass through any
truthy JSON value, so the field is kept as `Json`.  `structuredData` is the
decoded proposal or JSON `null`. -/
structure AIResponse where
  text : Json
  structuredData : Json

/-- JS `v || d` where `v` is a possibly-undefined property (`none` =
`undefined`): yields `v` when present and truthy, otherwise `d`. -/
def jsOrDefault (v : Option Json) (d : Json) : Json :=
  match v with
  | some j => if j.truthy then j else d
  | none => d

/-- The parse step of `chatWithAI` (`geminiService.ts` lines 137–150):
clean the fences, `JSON.parse` the cleaned text, and on success read
`parsed.text || "Here is the code."` and `parsed.structuredData || null`;
on a decode failure return the raw (uncleaned) text with `null` data.
Property access on a decoded `null` throws a `TypeError`, which the same
`catch` turns into the raw-text fallback. -/
def parseStep (rawText : String) : AIResponse :=
  match Json.parse (cleanText rawText) with
  | none => ⟨Json.str rawText, Json.null⟩
  | some Json.null => ⟨Json.str rawText, Json.null⟩
  | some j =>
    ⟨jsOrDefault (j.getField "text") (Json.str "Here is the code."),
     jsOrDefault (j.getField "structuredData") Json.null⟩

/-- One conversation turn (`{role: 'user' | 'model', text: string}`). -/
structure ConversationTurn where
  role : String
  text : String

/-- The `AIModelConfig` record as used by `chatWithAI`: the model id and the provider
kind (`'google' | 'groq' | 'openai'` in the catalog; the dispatch switch
also has a default branch for any other value). -/
structure AIModelConfig where
  id : String
  provider : String

/-- Models `error.message || String(error)` for a thrown `Error` whose `message`
is `m` (`String(new Error(""))` is `"Error"`). -/
def errorMessageOf (m : String) : String :=
  if m = "" then "Error" else m

/-- The catch-all reply built by `chatWithAI` when the provider call (or
the empty-response check) throws. -/
def errorResponse (modelConfig : AIModelConfig) (m : String) : AIResponse :=
  ⟨Json.str ("Error (" ++ modelConfig.provider ++ "): " ++ errorMessageOf m ++
      ". Please check your API keys and configuration."),
   Json.null⟩

/-- Model of `chatWithAI` (`geminiService.ts` lines 115–161).  The awaited provider
call is external I/O, passed in as its outcome `providerOutcome` (`.error m`
models a thrown `Error` with message `m`, e.g. a missing-credential throw
raised before any network call, or an upstream failure).  An unsupported
provider kind throws `"Unsupported provider"`; an empty raw text throws
`"No response from AI"`; every throw is absorbed by the outer `catch` into
`errorResponse`. -/
def chatWithAI (history : List ConversationTurn) (newMessage : String)
    (modelConfig : AIModelConfig) (providerOutcome : Except String String) :
    AIResponse :=
  let dispatched : Except String String :=
    if modelConfig.provider = "google" ∨ modelConfig.provider = "groq" ∨
        modelConfig.provider = "openai" then
      providerOutcome
    else
      Except.error "Unsupported provider"
  match history, newMessage, dispatched with
  | _, _, Except.error m => errorResponse modelConfig m
  | _, _, Except.ok rawText =>
    if rawText = "" then errorResponse modelConfig "No response from AI"
    else parseStep rawText

/-! ### Remote-host (GitHub contents API) model

The remote repository is modelled at the file level: a map from path to
blob (content plus content-addressed sha, equal contents giving equal
shas, as for git blobs), together with the commit history of the target
branch.  Transient network/permission faults of the two remote calls are
injected through the `probeError` / `writeError` fields. -/

structure RemoteFile where
  content : String
  sha : String
deriving Repr, DecidableEq

structure RemoteCommit where
  message : String
  htmlUrl : String
deriving Repr, DecidableEq

structure RemoteRepo where
  files : List (String × RemoteFile)
  history : List RemoteCommit
  probeError : Option (Nat × String)
  writeError : Option String
deriving Repr, DecidableEq

def lookupFile : List (String × RemoteFile) → String → Option RemoteFile
  | [], _ => none
  | (p, f) :: t, q => if p = q then some f else lookupFile t q

def setFile : List (String × RemoteFile) → String → RemoteFile → List (String × RemoteFile)
  | [], p, f => [(p, f)]
  | (q, g) :: t, p, f => if q = p then (p, f) :: t else (q, g) :: setFile t p f

/-- Content-addressed revision marker of a blob (equal contents ⇒ equal
shas, as for git blob hashes). -/
def blobSha (content : String) : String :=
  "blob-" ++ content

/-- Canonical html_url of the `n`-th commit created on the remote host. -/
def commitUrl (n : Nat) : String :=
  "https://github.example/commit/" ++ toString n

inductive GetContentResult where
  | found (sha : String)
  | errStatus (status : Nat) (message : String)
deriving Repr, DecidableEq

/-- Models `octokit.repos.getContent` on the modelled remote: an injected fault
takes precedence; otherwise an existing blob answers with its sha and a
missing path throws with status 404. -/
def getContent (repo : RemoteRepo) (path : String) : GetContentResult :=
  match repo.probeError with
  | some (st, m) => GetContentResult.errStatus st m
  | none =>
    match lookupFile repo.files path with
    | some f => GetContentResult.found f.sha
    | none => GetContentResult.errStatus 404 "Not Found"

inductive WriteOutcome where
  | ok (url : String)
  | err (message : String)
deriving Repr, DecidableEq

/-- Models `octokit.repos.createOrUpdateFileContents` on the modelled remote.
Omitting the sha signals "create" (rejected if the path already exists);
supplying it signals "update" (rejected if it is stale or the path is
gone).  A successful write stores the new blob and appends one commit to
the branch history, whose canonical html_url is returned. -/
def createOrUpdateFileContents (repo : RemoteRepo) (path message content : String)
    (sha : Option String) : WriteOutcome × RemoteRepo :=
  match repo.writeError with
  | some m => (WriteOutcome.err m, repo)
  | none =>
    match sha, lookupFile repo.files path with
    | none, none =>
      let url := commitUrl repo.history.length
      (WriteOutcome.ok url,
       { repo with
           files := setFile repo.files path ⟨content, blobSha content⟩,
           history := repo.history ++ [⟨message, url⟩] })
    | none, some _ =>
      (WriteOutcome.err "Invalid request. \"sha\" wasn't supplied.", repo)
    | some s, some f =>
      if f.sha = s then
        let url := commitUrl repo.history.length
        (WriteOutcome.ok url,
         { repo with
             files := setFile repo.files path ⟨content, blobSha content⟩,
             history := repo.history ++ [⟨message, url⟩] })
      else
        (WriteOutcome.err "is at a different sha than expected", repo)
    | some _, none => (WriteOutcome.err "Not Found", repo)

/-! ### The two commit endpoints -/

/-- JSON body of a commit request; `none` models an absent key. -/
structure CommitBody where
  file_path : Option String
  new_content : Option String
  commit_message : Option String
deriving Repr, DecidableEq

/-- Server-side deployment configuration (`GITHUB_TOKEN` / `GITHUB_OWNER`
/ `GITHUB_REPO`); `none` models an unset variable. -/
structure GithubEnv where
  token : Option String
  owner : Option String
  repo : Option String
deriving Repr, DecidableEq

/-- JS truthiness of a possibly-absent string: absent and `""` are falsy. -/
def truthyOpt : Option String → Bool
  | some s => s != ""
  | none => false

inductive ApiResponse where
  | errorResp (status : Nat) (error : String)
  | successResp (message : String) (htmlUrl : String)
deriving Repr, DecidableEq

/-- Trace of remote interactions performed while serving one request. -/
inductive RemoteCall where
  | probe (path : String)
  | write (path : String) (sha : Option String)
deriving Repr, DecidableEq

/-- Step 3 shared by both endpoints: perform the create-or-update write and
render the HTTP response.  On success the message is chosen by whether a
sha was supplied; a thrown write error is caught by the outer `catch` and
becomes a 500 whose message is `error.message || fallback`. -/
def writeStep (repo : RemoteRepo) (path content message : String)
    (sha : Option String) (calls : List RemoteCall) (fallback : String) :
    ApiResponse × RemoteRepo × List RemoteCall :=
  match createOrUpdateFileContents repo path message content sha with
  | (WriteOutcome.ok url, repo2) =>
    (ApiResponse.successResp
        (if sha.isSome then "File updated successfully" else "File created successfully") url,
     repo2, calls ++ [RemoteCall.write path sha])
  | (WriteOutcome.err m, repo2) =>
    (ApiResponse.errorResp 500 (if m = "" then fallback else m), repo2,
     calls ++ [RemoteCall.write path sha])

/-- The Next.js `POST` handler of `src/app/api/commit/route.ts`.  Field
validation is by truthiness, then the environment credentials are checked;
the existence probe's 404 leaves `sha` unset, while any other probe error
is logged and re-thrown, so the outer `catch` answers 500 with the error's
message and the write is never attempted.  (The route also leaves `sha`
unset when `getContent` answers with a directory listing or a sha-less
object; the file-level remote model never produces that shape.) -/
def routePOST (body : CommitBody) (env : GithubEnv) (repo : RemoteRepo) :
    ApiResponse × RemoteRepo × List RemoteCall :=
  if truthyOpt body.file_path && truthyOpt body.new_content &&
      truthyOpt body.commit_message then
    if truthyOpt env.token && truthyOpt env.owner && truthyOpt env.repo then
      let path := body.file_path.getD ""
      let content := body.new_content.getD ""
      let message := body.commit_message.getD ""
      match getContent repo path with
      | GetContentResult.found s =>
        writeStep repo path content message (some s) [RemoteCall.probe path]
          "Internal Server Error"
      | GetContentResult.errStatus st m =>
        if st = 404 then
          writeStep repo path content message none [RemoteCall.probe path]
            "Internal Server Error"
        else
          (ApiResponse.errorResp 500 (if m = "" then "Internal Server Error" else m),
           repo, [RemoteCall.probe path])
    else
      (ApiResponse.errorResp 500 "Server configuration error: Missing GitHub credentials.",
       repo, [])
  else
    (ApiResponse.errorResp 400 "Missing required fields: file_path, new_content, commit_message",
     repo, [])

/-- The Vercel serverless commit `handler` (second commit endpoint in the
repo).  Identical to `routePOST` except that a non-404 probe failure is
only logged: `sha` stays unset and the handler still proceeds to the
create-or-update write. -/
def vercelHandler (body : CommitBody) (env : GithubEnv) (repo : RemoteRepo) :
    ApiResponse × RemoteRepo × List RemoteCall :=
  if truthyOpt body.file_path && truthyOpt body.new_content &&
      truthyOpt body.commit_message then
    if truthyOpt env.token && truthyOpt env.owner && truthyOpt env.repo then
      let path := body.file_path.getD ""
      let content := body.new_content.getD ""
      let message := body.commit_message.getD ""
      match getContent repo path with
      | GetContentResult.found s =>
        writeStep repo path content message (some s) [RemoteCall.probe path]
          "Failed to commit to GitHub"
      | GetContentResult.errStatus _ _ =>
        writeStep repo path content message none [RemoteCall.probe path]
          "Failed to commit to GitHub"
    else
      (ApiResponse.errorResp 500 "Server configuration error: Missing GitHub credentials.",
       repo, [])
  else
    (ApiResponse.errorResp 400 "Missing required fields", repo, [])

/-! ### `getRepoFileTree` (`src/services/githubService.ts`) -/

/-- One entry of the recursive git tree listing; `path` is optional in the
octokit response type. -/
structure TreeItem where
  itemType : String
  path : Option String
deriving Repr, DecidableEq

/-- Outcome of the `getRef`/`getTree` remote calls, passed in as an oracle. -/
inductive TreeFetch where
  | ok (items : List TreeItem)
  | err (message : String)
deriving Repr, DecidableEq

def isPrefixL : List Char → List Char → Bool
  | [], _ => true
  | _ :: _, [] => false
  | a :: t, b :: u => a = b && isPrefixL t u

def containsSubL (pat : List Char) : List Char → Bool
  | [] => isPrefixL pat []
  | c :: t => isPrefixL pat (c :: t) || containsSubL pat t

/-- JS `String.prototype.startsWith`. -/
def startsWithStr (s pre : String) : Bool :=
  isPrefixL pre.data s.data

/-- JS `String.prototype.includes` (substring containment). -/
def containsSub (s pat : String) : Bool :=
  containsSubL pat.data s.data

/-- Model of `getRepoFileTree`: with no caller token and no environment token,
`getOctokit` throws pre-network; any remote failure is caught; otherwise
keep only blobs, drop falsy paths and the `.git`/`node_modules`/
`package-lock.json` exclusions.  Every failure path returns `[]`. -/
def getRepoFileTree (token envToken : Option String) (fetched : TreeFetch) :
    List String :=
  if truthyOpt token || truthyOpt envToken then
    match fetched with
    | TreeFetch.err _ => []
    | TreeFetch.ok items =>
      ((((items.filter (fun i => i.itemType = "blob")).map (fun i => i.path)).filterMap id).filter
        (fun p => p != "" && !(startsWithStr p ".git") && !(containsSub p "node_modules") &&
          !(containsSub p "package-lock.json")))
  else []

/-! ### Spec-side variant of the parse step (for refinement comparison) -/

/-- Modelled from the spec: nullish (`??`) defaulting, under which only an
absent (or JSON-`null`) property falls back to the default, while a present
falsy value such as `""` is kept. -/
def jsNullishDefault (v : Option Json) (d : Json) : Json :=
  match v with
  | some Json.null => d
  | some j => j
  | none => d

/-- Modelled from the spec: the parse step as the spec words it, with
`parsed.text ?? "Here is the code."` and `parsed.structuredData ?? null`
(nullish defaulting) in place of the implementation's truthy `||`
defaulting.  To be compared with `parseStep`. -/
def parseStepSpec (rawText : String) : AIResponse :=
  match Json.parse (cleanText rawText) with
  | none => ⟨Json.str rawText, Json.null⟩
  | some Json.null => ⟨Json.str rawText, Json.null⟩
  | some j =>
    ⟨jsNullishDefault (j.getField "text") (Json.str "Here is the code."),
     jsNullishDefault (j.getField "structuredData") Json.null⟩

/-- Whether an HTTP response of the commit endpoint is the success shape. -/
def ApiResponse.isSuccess : ApiResponse → Bool
  | ApiResponse.successResp _ _ => true
  | _ => false

/-! ## Theorems -/

/-! ### Fence-cleanup helper lemmas -/

theorem stripLeadL_jsonFence (c1 c2 c3 c4 : Char) (rest : List Char)
    (h1 : c1.toLower = 'j') (h2 : c2.toLower = 's') (h3 : c3.toLower = 'o')
    (h4 : c4.toLower = 'n') :
    stripLeadL ('\x60' :: '\x60' :: '\x60' :: c1 :: c2 :: c3 :: c4 :: '\n' :: rest) = rest := by
  simp [stripLeadL, h1, h2, h3, h4]

theorem stripTrailL_concatFence (cs : List Char) :
    stripTrailL (cs ++ ['\n', '\x60', '\x60', '\x60']) = cs := by
  have hrev : (cs ++ ['\n', '\x60', '\x60', '\x60']).reverse = '\x60' :: '\x60' :: '\x60' :: '\n' :: cs.reverse := by
    simp
  rw [stripTrailL, hrev]
  simp [stripTrailRev]

theorem cleanText_jsonFenced (tag p : String)
    (htag : tag.data.map Char.toLower = ['j', 's', 'o', 'n']) :
    cleanText ("```" ++ tag ++ "\n" ++ p ++ "\n```") = p := by
  rcases tag with ⟨cs⟩
  rcases cs with _ | ⟨c1, _ | ⟨c2, _ | ⟨c3, _ | ⟨c4, _ | ⟨c5, rest⟩⟩⟩⟩⟩ <;> simp at htag
  obtain ⟨h1, h2, h3, h4⟩ := htag
  unfold cleanText stripLeadingJsonFence stripTrailingFence
  have hdata : ("```" ++ String.mk [c1, c2, c3, c4] ++ "\n" ++ p ++ "\n```").data =
      '\x60' :: '\x60' :: '\x60' :: c1 :: c2 :: c3 :: c4 :: '\n' :: (p.data ++ ['\n', '\x60', '\x60', '\x60']) := by
    simp [String.data_append]
  rw [hdata, stripLeadL_jsonFence c1 c2 c3 c4 _ h1 h2 h3 h4, stripTrailL_concatFence]

/-! ### Claim theorems for the response parser and orchestrator -/

/-- C2 (corrected): when the opening fence carries the tag `json` in any
letter case, the parse step strips the fences, so a fence-stable payload
that decodes to a non-null JSON value yields the same `AIResponse` wrapped
or unwrapped.  (The counterexample shows that fences with any other tag,
or with no tag, are not stripped, contrary to the original claim.) -/
theorem claim_C2 (tag p : String) (j : Json)
    (htag : tag.data.map Char.toLower = ['j', 's', 'o', 'n'])
    (hp : cleanText p = p) (hj : Json.parse p = some j) (hnull : j ≠ Json.null) :
    parseStep ("```" ++ tag ++ "\n" ++ p ++ "\n```") = parseStep p := by
  have hc := cleanText_jsonFenced tag p htag
  unfold parseStep
  rw [hc, hp, hj]
  cases j
  case null => exact absurd rfl hnull
  all_goals rfl

/-- Witness for C2's amended theorem at the tag `JSON` and the payload
`{"text":"hi"}`. -/
theorem claim_C2_witness :
    parseStep ("```" ++ "JSON" ++ "\n" ++ "\x7b\"text\":\"hi\"\x7d" ++ "\n```") =
      parseStep "\x7b\"text\":\"hi\"\x7d" :=
  claim_C2 "JSON" "\x7b\"text\":\"hi\"\x7d" (Json.obj [("text", Json.str "hi")])
    (by decide) rfl rfl (fun h => Json.noConfusion h)

/-- Counterexample for C2 as stated: a payload wrapped in a fence tagged
`typescript` does not decode to the same `AIResponse` as the unwrapped
payload — the leading fence survives the cleanup, the JSON decode fails,
and the whole wrapped text degrades to a plain-text reply. -/
theorem claim_C2_counterexample :
    parseStep "\x7b\"text\":\"hi\"\x7d" = ⟨Json.str "hi", Json.null⟩ ∧
    parseStep "```typescript\n\x7b\"text\":\"hi\"\x7d\n```" =
      ⟨Json.str "```typescript\n\x7b\"text\":\"hi\"\x7d\n```", Json.null⟩ ∧
    parseStep "```typescript\n\x7b\"text\":\"hi\"\x7d\n```" ≠
      parseStep "\x7b\"text\":\"hi\"\x7d" := by
  refine ⟨rfl, rfl, fun h => ?_⟩
  rw [show parseStep "```typescript\n\x7b\"text\":\"hi\"\x7d\n```" =
        ⟨Json.str "```typescript\n\x7b\"text\":\"hi\"\x7d\n```", Json.null⟩ from rfl,
      show parseStep "\x7b\"text\":\"hi\"\x7d" = ⟨Json.str "hi", Json.null⟩ from rfl] at h
  injection h with ht hd
  injection ht with hs
  exact absurd hs (by decide)

/-- C5 (confirmed): whatever the history, message and model configuration,
when the selected provider call throws an error with message `m`, the
orchestrator absorbs it and replies with the diagnostic text
`Error (<provider>): <m>. Please check your API keys and configuration.`
and null structured data; `chatWithAI` is a total function, so no
exception escapes. -/
theorem claim_C5 (history : List ConversationTurn) (newMessage : String)
    (mc : AIModelConfig) (m : String)
    (hprov : mc.provider = "google" ∨ mc.provider = "groq" ∨ mc.provider = "openai")
    (hm : m ≠ "") :
    chatWithAI history newMessage mc (Except.error m) =
      ⟨Json.str ("Error (" ++ mc.provider ++ "): " ++ m ++
          ". Please check your API keys and configuration."),
       Json.null⟩ := by
  rcases hprov with h | h | h <;>
    simp [chatWithAI, h, errorResponse, errorMessageOf, hm]

/-- Witness for C5 at a missing-credential throw of the google provider. -/
theorem claim_C5_witness :
    chatWithAI [] "hi" ⟨"gemini-2.0-flash", "google"⟩
        (Except.error "API_KEY (Google) is missing.") =
      ⟨Json.str ("Error (" ++ "google" ++ "): " ++ "API_KEY (Google) is missing." ++
          ". Please check your API keys and configuration."),
       Json.null⟩ :=
  claim_C5 [] "hi" ⟨"gemini-2.0-flash", "google"⟩ "API_KEY (Google) is missing."
    (Or.inl rfl) (by decide)

/-- C6 (confirmed): when the fence-cleaned text is not decodable JSON, the
parse step returns the original raw (uncleaned) text with null structured
data, and being a total function it never throws. -/
theorem claim_C6 (rawText : String)
    (h : Json.parse (cleanText rawText) = none) :
    parseStep rawText = ⟨Json.str rawText, Json.null⟩ := by
  unfold parseStep
  rw [h]

/-- Witness for C6 at the non-JSON provider text `hello world`. -/
theorem claim_C6_witness :
    Json.parse (cleanText "hello world") = none ∧
    parseStep "hello world" = ⟨Json.str "hello world", Json.null⟩ :=
  ⟨rfl, claim_C6 "hello world" rfl⟩

/-- C7 (corrected): when the cleaned text decodes to a JSON object, the
parse step applies JS truthy (`||`) defaulting — not the nullish (`??`)
defaulting of the original claim: `text` falls back to
`Here is the code.` whenever `parsed.text` is absent or falsy, and
`structuredData` falls back to null whenever absent or falsy; in
particular an object with no `structuredData` member yields exactly
null. -/
theorem claim_C7 (rawText : String) (kvs : List (String × Json))
    (h : Json.parse (cleanText rawText) = some (Json.obj kvs)) :
    parseStep rawText =
      ⟨jsOrDefault (lookupLast kvs "text") (Json.str "Here is the code."),
       jsOrDefault (lookupLast kvs "structuredData") Json.null⟩ ∧
    (lookupLast kvs "structuredData" = none →
      (parseStep rawText).structuredData = Json.null) := by
  constructor
  · unfold parseStep
    rw [h]
    rfl
  · intro h2
    unfold parseStep
    rw [h]
    simp [Json.getField, h2, jsOrDefault]

/-- Witness for C7's amended theorem at the payload `{"text":"hi"}`. -/
theorem claim_C7_witness :
    parseStep "\x7b\"text\":\"hi\"\x7d" =
      ⟨jsOrDefault (lookupLast [("text", Json.str "hi")] "text")
          (Json.str "Here is the code."),
       jsOrDefault (lookupLast [("text", Json.str "hi")] "structuredData") Json.null⟩ ∧
    (lookupLast [("text", Json.str "hi")] "structuredData" = none →
      (parseStep "\x7b\"text\":\"hi\"\x7d").structuredData = Json.null) :=
  claim_C7 "\x7b\"text\":\"hi\"\x7d" [("text", Json.str "hi")] rfl

/-- Counterexample for C7 as stated: on the decoded object `{"text":""}`
the nullish (`??`) reading of the claim yields the empty text, but the
implementation's `||` makes the falsy empty string fall back to
`Here is the code.`, so the two disagree. -/
theorem claim_C7_counterexample :
    parseStep "\x7b\"text\":\"\"\x7d" = ⟨Json.str "Here is the code.", Json.null⟩ ∧
    parseStepSpec "\x7b\"text\":\"\"\x7d" = ⟨Json.str "", Json.null⟩ ∧
    parseStep "\x7b\"text\":\"\"\x7d" ≠ parseStepSpec "\x7b\"text\":\"\"\x7d" := by
  refine ⟨rfl, rfl, fun h => ?_⟩
  rw [show parseStep "\x7b\"text\":\"\"\x7d" =
        ⟨Json.str "Here is the code.", Json.null⟩ from rfl,
      show parseStepSpec "\x7b\"text\":\"\"\x7d" = ⟨Json.str "", Json.null⟩ from rfl] at h
  injection h with ht hd
  injection ht with hs
  exact absurd hs (by decide)

/-! ### Commit-gateway helper lemmas -/

theorem lookupFile_setFile (fs : List (String × RemoteFile)) (p : String) (f : RemoteFile) :
    lookupFile (setFile fs p f) p = some f := by
  induction fs with
  | nil => simp [setFile, lookupFile]
  | cons hd t ih =>
    obtain ⟨q, g⟩ := hd
    by_cases hq : q = p <;> simp [setFile, lookupFile, hq, ih]

theorem writeStep_calls (repo : RemoteRepo) (path content message : String)
    (sha : Option String) (calls : List RemoteCall) (fallback : String) :
    (writeStep repo path content message sha calls fallback).2.2 =
      calls ++ [RemoteCall.write path sha] := by
  unfold writeStep
  rcases hcw : createOrUpdateFileContents repo path message content sha with ⟨o, r2⟩
  cases o <;> rfl

/-- One successful call of the Next.js commit route on a healthy remote
(no injected faults): the probe decides create-vs-update, the write stores
the new blob and appends one commit, and the response carries that
commit's canonical html_url. -/
theorem routePOST_healthy (path content message : String) (env : GithubEnv)
    (repo : RemoteRepo)
    (hp : path ≠ "") (hc : content ≠ "") (hm : message ≠ "")
    (he : (truthyOpt env.token && truthyOpt env.owner && truthyOpt env.repo) = true)
    (hpe : repo.probeError = none) (hwe : repo.writeError = none) :
    routePOST ⟨some path, some content, some message⟩ env repo =
      (ApiResponse.successResp
         (if (lookupFile repo.files path).isSome then "File updated successfully"
          else "File created successfully")
         (commitUrl repo.history.length),
       { repo with
           files := setFile repo.files path ⟨content, blobSha content⟩,
           history := repo.history ++ [⟨message, commitUrl repo.history.length⟩] },
       [RemoteCall.probe path,
        RemoteCall.write path ((lookupFile repo.files path).map RemoteFile.sha)]) := by
  have hb : (truthyOpt (some path) && truthyOpt (some content) &&
      truthyOpt (some message)) = true := by
    simp [truthyOpt, hp, hc, hm]
  rcases hlf : lookupFile repo.files path with _ | f
  · simp [routePOST, hb, he, getContent, hpe, hlf, writeStep,
      createOrUpdateFileContents, hwe]
  · simp [routePOST, hb, he, getContent, hpe, hlf, writeStep,
      createOrUpdateFileContents, hwe]

/-! ### Claim theorems for the commit gateway -/

/-- Counterexample for C1 as stated: with valid fields and credentials but
a probe failing with status 500 (`rate limited`), the Next.js route
answers 500 and performs no step-3 write — the non-404 probe failure
aborts the commit attempt. -/
theorem claim_C1_counterexample :
    routePOST ⟨some "a.txt", some "hello", some "m"⟩ ⟨some "t", some "o", some "r"⟩
        ⟨[], [], some (500, "rate limited"), none⟩ =
      (ApiResponse.errorResp 500 "rate limited",
       ⟨[], [], some (500, "rate limited"), none⟩,
       [RemoteCall.probe "a.txt"]) := by
  rfl

/-- C1 (corrected): on a non-404 probe failure the Vercel serverless
handler logs and proceeds to the step-3 write with no revision marker,
but the Next.js app-route handler re-throws, so it answers 500 with the
probe error's message and never reaches the write. -/
theorem claim_C1 (body : CommitBody) (env : GithubEnv) (repo : RemoteRepo)
    (st : Nat) (m : String)
    (hb : (truthyOpt body.file_path && truthyOpt body.new_content &&
      truthyOpt body.commit_message) = true)
    (he : (truthyOpt env.token && truthyOpt env.owner && truthyOpt env.repo) = true)
    (hpe : repo.probeError = some (st, m))
    (h404 : st ≠ 404) (hm : m ≠ "") :
    (vercelHandler body env repo).2.2 =
      [RemoteCall.probe (body.file_path.getD ""),
       RemoteCall.write (body.file_path.getD "") none] ∧
    routePOST body env repo =
      (ApiResponse.errorResp 500 m, repo, [RemoteCall.probe (body.file_path.getD "")]) := by
  constructor
  · simp [vercelHandler, hb, he, getContent, hpe, writeStep_calls]
  · simp [routePOST, hb, he, getContent, hpe, h404, hm]

/-- Witness for C1's amended theorem at a 403 probe failure. -/
theorem claim_C1_witness :
    (vercelHandler ⟨some "a.txt", some "hello", some "m"⟩ ⟨some "t", some "o", some "r"⟩
        ⟨[], [], some (403, "forbidden"), none⟩).2.2 =
      [RemoteCall.probe "a.txt", RemoteCall.write "a.txt" none] ∧
    routePOST ⟨some "a.txt", some "hello", some "m"⟩ ⟨some "t", some "o", some "r"⟩
        ⟨[], [], some (403, "forbidden"), none⟩ =
      (ApiResponse.errorResp 500 "forbidden",
       ⟨[], [], some (403, "forbidden"), none⟩,
       [RemoteCall.probe "a.txt"]) :=
  claim_C1 ⟨some "a.txt", some "hello", some "m"⟩ ⟨some "t", some "o", some "r"⟩
    ⟨[], [], some (403, "forbidden"), none⟩ 403 "forbidden"
    (by decide) (by decide) rfl (by decide) (by decide)

/-- C3 (confirmed): committing the same request twice against a healthy,
externally-unchanged remote yields two successes, the second reporting
`File updated successfully`; the file content after each call is the same
blob (content-level idempotence), while the second call still appends one
more history entry on the remote host. -/
theorem claim_C3 (path content message : String) (env : GithubEnv) (repo : RemoteRepo)
    (hp : path ≠ "") (hc : content ≠ "") (hm : message ≠ "")
    (he : (truthyOpt env.token && truthyOpt env.owner && truthyOpt env.repo) = true)
    (hpe : repo.probeError = none) (hwe : repo.writeError = none) :
    (routePOST ⟨some path, some content, some message⟩ env repo).1.isSuccess = true ∧
    (∃ url, (routePOST ⟨some path, some content, some message⟩ env
        (routePOST ⟨some path, some content, some message⟩ env repo).2.1).1 =
      ApiResponse.successResp "File updated successfully" url) ∧
    lookupFile ((routePOST ⟨some path, some content, some message⟩ env repo).2.1).files
        path = some ⟨content, blobSha content⟩ ∧
    lookupFile ((routePOST ⟨some path, some content, some message⟩ env
        (routePOST ⟨some path, some content, some message⟩ env repo).2.1).2.1).files
        path = some ⟨content, blobSha content⟩ ∧
    ((routePOST ⟨some path, some content, some message⟩ env
        (routePOST ⟨some path, some content, some message⟩ env repo).2.1).2.1).history.length =
      ((routePOST ⟨some path, some content, some message⟩ env repo).2.1).history.length + 1 := by
  have h1 := routePOST_healthy path content message env repo hp hc hm he hpe hwe
  have h2 := routePOST_healthy path content message env
    { repo with
        files := setFile repo.files path ⟨content, blobSha content⟩,
        history := repo.history ++ [⟨message, commitUrl repo.history.length⟩] }
    hp hc hm he hpe hwe
  simp only [h1]
  simp only [h2]
  simp [lookupFile_setFile, ApiResponse.isSuccess]

/-- Witness for C3 on an initially empty healthy remote. -/
theorem claim_C3_witness :
    (routePOST ⟨some "a.txt", some "hello", some "m"⟩ ⟨some "t", some "o", some "r"⟩
        ⟨[], [], none, none⟩).1.isSuccess = true ∧
    (∃ url, (routePOST ⟨some "a.txt", some "hello", some "m"⟩ ⟨some "t", some "o", some "r"⟩
        (routePOST ⟨some "a.txt", some "hello", some "m"⟩ ⟨some "t", some "o", some "r"⟩
          ⟨[], [], none, none⟩).2.1).1 =
      ApiResponse.successResp "File updated successfully" url) ∧
    lookupFile ((routePOST ⟨some "a.txt", some "hello", some "m"⟩
        ⟨some "t", some "o", some "r"⟩ ⟨[], [], none, none⟩).2.1).files "a.txt" =
      some ⟨"hello", blobSha "hello"⟩ ∧
    lookupFile ((routePOST ⟨some "a.txt", some "hello", some "m"⟩
        ⟨some "t", some "o", some "r"⟩
        (routePOST ⟨some "a.txt", some "hello", some "m"⟩ ⟨some "t", some "o", some "r"⟩
          ⟨[], [], none, none⟩).2.1).2.1).files "a.txt" =
      some ⟨"hello", blobSha "hello"⟩ ∧
    ((routePOST ⟨some "a.txt", some "hello", some "m"⟩ ⟨some "t", some "o", some "r"⟩
        (routePOST ⟨some "a.txt", some "hello", some "m"⟩ ⟨some "t", some "o", some "r"⟩
          ⟨[], [], none, none⟩).2.1).2.1).history.length =
      ((routePOST ⟨some "a.txt", some "hello", some "m"⟩ ⟨some "t", some "o", some "r"⟩
        ⟨[], [], none, none⟩).2.1).history.length + 1 :=
  claim_C3 "a.txt" "hello" "m" ⟨some "t", some "o", some "r"⟩ ⟨[], [], none, none⟩
    (by decide) (by decide) (by decide) (by decide) rfl rfl

/-- C4 (confirmed): on a healthy remote, when the probe finds no blob at
the path, the write is performed with no revision marker and the success
response reports `File created successfully`; when a blob is found its sha
is passed and the response reports `File updated successfully`; in both
cases the reported html_url is the canonical url of the commit the write
just appended on the remote host. -/
theorem claim_C4 (path content message : String) (env : GithubEnv) (repo : RemoteRepo)
    (hp : path ≠ "") (hc : content ≠ "") (hm : message ≠ "")
    (he : (truthyOpt env.token && truthyOpt env.owner && truthyOpt env.repo) = true)
    (hpe : repo.probeError = none) (hwe : repo.writeError = none) :
    (lookupFile repo.files path = none →
      routePOST ⟨some path, some content, some message⟩ env repo =
        (ApiResponse.successResp "File created successfully" (commitUrl repo.history.length),
         { repo with
             files := setFile repo.files path ⟨content, blobSha content⟩,
             history := repo.history ++ [⟨message, commitUrl repo.history.length⟩] },
         [RemoteCall.probe path, RemoteCall.write path none]) ∧
      ((routePOST ⟨some path, some content, some message⟩ env repo).2.1).history.getLast? =
        some ⟨message, commitUrl repo.history.length⟩) ∧
    (∀ f, lookupFile repo.files path = some f →
      routePOST ⟨some path, some content, some message⟩ env repo =
        (ApiResponse.successResp "File updated successfully" (commitUrl repo.history.length),
         { repo with
             files := setFile repo.files path ⟨content, blobSha content⟩,
             history := repo.history ++ [⟨message, commitUrl repo.history.length⟩] },
         [RemoteCall.probe path, RemoteCall.write path (some f.sha)]) ∧
      ((routePOST ⟨some path, some content, some message⟩ env repo).2.1).history.getLast? =
        some ⟨message, commitUrl repo.history.length⟩) := by
  have h1 := routePOST_healthy path content message env repo hp hc hm he hpe hwe
  constructor
  · intro h
    constructor
    · rw [h1]
      simp [h]
    · rw [h1]
      simp
  · intro f hf
    constructor
    · rw [h1]
      simp [hf]
    · rw [h1]
      simp

/-- Witness for C4: a create on an empty remote and an update on a remote
already holding a blob at the path. -/
theorem claim_C4_witness :
    (routePOST ⟨some "a.txt", some "hello", some "m"⟩ ⟨some "t", some "o", some "r"⟩
        ⟨[], [], none, none⟩ =
      (ApiResponse.successResp "File created successfully" "https://github.example/commit/0",
       ⟨[("a.txt", ⟨"hello", "blob-hello"⟩)], [⟨"m", "https://github.example/commit/0"⟩],
        none, none⟩,
       [RemoteCall.probe "a.txt", RemoteCall.write "a.txt" none])) ∧
    (routePOST ⟨some "a.txt", some "hello", some "m"⟩ ⟨some "t", some "o", some "r"⟩
        ⟨[("a.txt", ⟨"old", "sha-old"⟩)], [], none, none⟩ =
      (ApiResponse.successResp "File updated successfully" "https://github.example/commit/0",
       ⟨[("a.txt", ⟨"hello", "blob-hello"⟩)], [⟨"m", "https://github.example/commit/0"⟩],
        none, none⟩,
       [RemoteCall.probe "a.txt", RemoteCall.write "a.txt" (some "sha-old")])) :=
  ⟨((claim_C4 "a.txt" "hello" "m" ⟨some "t", some "o", some "r"⟩ ⟨[], [], none, none⟩
      (by decide) (by decide) (by decide) (by decide) rfl rfl).1 (by decide)).1,
   ((claim_C4 "a.txt" "hello" "m" ⟨some "t", some "o", some "r"⟩
      ⟨[("a.txt", ⟨"old", "sha-old"⟩)], [], none, none⟩
      (by decide) (by decide) (by decide) (by decide) rfl rfl).2
      ⟨"old", "sha-old"⟩ (by decide)).1⟩

/-- C8 (confirmed): a request missing (or blank in) any of the three body
fields is answered 400 with the message naming the required fields, with
no remote call and independently of the server configuration; a request
with all fields but incomplete GitHub credentials is answered 500 with
the configuration error, again before any remote call. -/
theorem claim_C8 (body : CommitBody) (env : GithubEnv) (repo : RemoteRepo) :
    ((truthyOpt body.file_path && truthyOpt body.new_content &&
        truthyOpt body.commit_message) = false →
      routePOST body env repo =
        (ApiResponse.errorResp 400
          "Missing required fields: file_path, new_content, commit_message", repo, []) ∧
      ∀ env2, routePOST body env2 repo = routePOST body env repo) ∧
    ((truthyOpt body.file_path && truthyOpt body.new_content &&
        truthyOpt body.commit_message) = true →
      (truthyOpt env.token && truthyOpt env.owner && truthyOpt env.repo) = false →
      routePOST body env repo =
        (ApiResponse.errorResp 500 "Server configuration error: Missing GitHub credentials.",
         repo, [])) := by
  constructor
  · intro h
    constructor
    · simp [routePOST, h]
    · intro env2
      simp [routePOST, h]
  · intro h1 h2
    simp [routePOST, h1, h2]

/-- Witness for C8: a body missing `commit_message` gets the 400 under any
configuration, and a full body with an unset `GITHUB_TOKEN` gets the 500. -/
theorem claim_C8_witness :
    (routePOST ⟨some "a.txt", some "hello", none⟩ ⟨some "t", some "o", some "r"⟩
        ⟨[], [], none, none⟩ =
      (ApiResponse.errorResp 400
        "Missing required fields: file_path, new_content, commit_message",
       ⟨[], [], none, none⟩, []) ∧
      ∀ env2, routePOST ⟨some "a.txt", some "hello", none⟩ env2 ⟨[], [], none, none⟩ =
        routePOST ⟨some "a.txt", some "hello", none⟩ ⟨some "t", some "o", some "r"⟩
          ⟨[], [], none, none⟩) ∧
    routePOST ⟨some "a.txt", some "hello", some "m"⟩ ⟨none, some "o", some "r"⟩
        ⟨[], [], none, none⟩ =
      (ApiResponse.errorResp 500 "Server configuration error: Missing GitHub credentials.",
       ⟨[], [], none, none⟩, []) :=
  ⟨(claim_C8 ⟨some "a.txt", some "hello", none⟩ ⟨some "t", some "o", some "r"⟩
      ⟨[], [], none, none⟩).1 (by decide),
   (claim_C8 ⟨some "a.txt", some "hello", some "m"⟩ ⟨none, some "o", some "r"⟩
      ⟨[], [], none, none⟩).2 (by decide) (by decide)⟩

/-- C10 (confirmed): a body field present but equal to the empty string is
rejected with the same 400 as a missing field (truthiness validation), the
endpoint behaves exactly as if all fields were absent, no remote call is
made, and the Vercel handler rejects likewise. -/
theorem claim_C10 (body : CommitBody) (env : GithubEnv) (repo : RemoteRepo)
    (h : body.file_path = some "" ∨ body.new_content = some "" ∨
      body.commit_message = some "") :
    routePOST body env repo =
      (ApiResponse.errorResp 400
        "Missing required fields: file_path, new_content, commit_message", repo, []) ∧
    routePOST body env repo = routePOST ⟨none, none, none⟩ env repo ∧
    vercelHandler body env repo =
      (ApiResponse.errorResp 400 "Missing required fields", repo, []) := by
  have hfalse : (truthyOpt body.file_path && truthyOpt body.new_content &&
      truthyOpt body.commit_message) = false := by
    rcases h with h | h | h <;> simp [h, truthyOpt]
  have hn : truthyOpt (none : Option String) = false := rfl
  refine ⟨?_, ?_, ?_⟩ <;> simp [routePOST, vercelHandler, hfalse, hn]

/-- Witness for C10 at a request whose `new_content` is the empty string. -/
theorem claim_C10_witness :
    routePOST ⟨some "a.txt", some "", some "m"⟩ ⟨some "t", some "o", some "r"⟩
        ⟨[], [], none, none⟩ =
      (ApiResponse.errorResp 400
        "Missing required fields: file_path, new_content, commit_message",
       ⟨[], [], none, none⟩, []) ∧
    routePOST ⟨some "a.txt", some "", some "m"⟩ ⟨some "t", some "o", some "r"⟩
        ⟨[], [], none, none⟩ =
      routePOST ⟨none, none, none⟩ ⟨some "t", some "o", some "r"⟩ ⟨[], [], none, none⟩ ∧
    vercelHandler ⟨some "a.txt", some "", some "m"⟩ ⟨some "t", some "o", some "r"⟩
        ⟨[], [], none, none⟩ =
      (ApiResponse.errorResp 400 "Missing required fields", ⟨[], [], none, none⟩, []) :=
  claim_C10 ⟨some "a.txt", some "", some "m"⟩ ⟨some "t", some "o", some "r"⟩
    ⟨[], [], none, none⟩ (Or.inr (Or.inl rfl))

/-- C9 (confirmed): `getRepoFileTree` returns `[]` on any fetch failure
and when no token is available at all; and every path it returns comes
from a blob entry of the tree and avoids `.git`-prefixed paths,
`node_modules` paths and `package-lock.json` paths. -/
theorem claim_C9 (token envToken : Option String) :
    (∀ m, getRepoFileTree token envToken (TreeFetch.err m) = []) ∧
    (truthyOpt token = false → truthyOpt envToken = false →
      ∀ fetched, getRepoFileTree token envToken fetched = []) ∧
    (∀ items p, p ∈ getRepoFileTree token envToken (TreeFetch.ok items) →
      (∃ i ∈ items, i.itemType = "blob" ∧ i.path = some p) ∧
      startsWithStr p ".git" = false ∧ containsSub p "node_modules" = false ∧
      containsSub p "package-lock.json" = false) := by
  refine ⟨?_, ?_, ?_⟩
  · intro m
    unfold getRepoFileTree
    split <;> rfl
  · intro h1 h2 fetched
    unfold getRepoFileTree
    simp [h1, h2]
  · intro items p hmem
    unfold getRepoFileTree at hmem
    split at hmem
    · simp only [List.mem_filter, List.mem_filterMap, List.mem_map, id] at hmem
      obtain ⟨⟨op, ⟨i, ⟨hi, hblob⟩, hpath⟩, hop⟩, hpred⟩ := hmem
      subst hop
      simp only [Bool.and_eq_true, Bool.not_eq_true', bne_iff_ne] at hpred
      exact ⟨⟨i, hi, of_decide_eq_true hblob, by rw [hpath]⟩,
        hpred.1.1.2, hpred.1.2, hpred.2⟩
    · exact absurd hmem (List.not_mem_nil p)

/-- Witness for C9: a fetch failure yields `[]`, a missing token yields
`[]`, and a concrete blob path passes the filters of the ok case. -/
theorem claim_C9_witness :
    getRepoFileTree (some "t") none (TreeFetch.err "boom") = [] ∧
    getRepoFileTree none (some "") (TreeFetch.ok [⟨"blob", some "src/x.ts"⟩]) = [] ∧
    ((∃ i ∈ [(⟨"blob", some "src/x.ts"⟩ : TreeItem)], i.itemType = "blob" ∧
        i.path = some "src/x.ts") ∧
      startsWithStr "src/x.ts" ".git" = false ∧
      containsSub "src/x.ts" "node_modules" = false ∧
      containsSub "src/x.ts" "package-lock.json" = false) :=
  ⟨(claim_C9 (some "t") none).1 "boom",
   (claim_C9 none (some "")).2.1 rfl rfl (TreeFetch.ok [⟨"blob", some "src/x.ts"⟩]),
   (claim_C9 (some "t") none).2.2 [⟨"blob", some "src/x.ts"⟩] "src/x.ts"
     (by
       rw [show getRepoFileTree (some "t") none
           (TreeFetch.ok [⟨"blob", some "src/x.ts"⟩]) = ["src/x.ts"] from rfl]
       exact List.mem_singleton.mpr rfl)⟩

end CoderDev
